import Mathlib

/-! # Verification of `orchard/engine/fetch.py`

A shallow embedding of the engine acquisition and installation subsystem:
`get_engine_path`, `download_engine`, `get_installed_version` and
`check_for_updates`.  Bytes are `Nat` (0–255), paths are strings, the
network and the tar decoder are oracles supplied as explicit inputs, and
the filesystem effects of an install are a trace of primitive operations
so that intermediate (crash-observable) states can be examined.
-/

namespace Orchard

/-! ## 32-bit arithmetic and SHA-256 (the digest used at fetch.py line 80) -/

def w32 (x : Nat) : Nat := x % 4294967296

def rotr (n x : Nat) : Nat := w32 ((x >>> n) ||| (x <<< (32 - n)))

def shr (n x : Nat) : Nat := x >>> n

def bigS0 (x : Nat) : Nat := rotr 2 x ^^^ rotr 13 x ^^^ rotr 22 x

def bigS1 (x : Nat) : Nat := rotr 6 x ^^^ rotr 11 x ^^^ rotr 25 x

def smallS0 (x : Nat) : Nat := rotr 7 x ^^^ rotr 18 x ^^^ shr 3 x

def smallS1 (x : Nat) : Nat := rotr 17 x ^^^ rotr 19 x ^^^ shr 10 x

def chF (e f g : Nat) : Nat := (e &&& f) ^^^ ((e ^^^ 4294967295) &&& g)

def majF (a b c : Nat) : Nat := (a &&& b) ^^^ (a &&& c) ^^^ (b &&& c)

/-- The 64 round constants of FIPS 180-4, in decimal. -/
def shaK : List Nat := [
  1116352408, 1899447441, 3049323471, 3921009573, 961987163, 1508970993,
  2453635748, 2870763221, 3624381080, 310598401, 607225278, 1426881987,
  1925078388, 2162078206, 2614888103, 3248222580, 3835390401, 4022224774,
  264347078, 604807628, 770255983, 1249150122, 1555081692, 1996064986,
  2554220882, 2821834349, 2952996808, 3210313671, 3336571891, 3584528711,
  113926993, 338241895, 666307205, 773529912, 1294757372, 1396182291,
  1695183700, 1986661051, 2177026350, 2456956037, 2730485921, 2820302411,
  3259730800, 3345764771, 3516065817, 3600352804, 4094571909, 275423344,
  430227734, 506948616, 659060556, 883997877, 958139571, 1322822218,
  1537002063, 1747873779, 1955562222, 2024104815, 2227730452, 2361852424,
  2428436474, 2756734187, 3204031479, 3329325298]

/-- The eight initial hash values of FIPS 180-4, in decimal. -/
def shaH0 : List Nat := [
  1779033703, 3144134277, 1013904242, 2773480762,
  1359893119, 2600822924, 528734635, 1541459225]

/-- Big-endian byte rendering of `v` on `n` bytes. -/
def beBytes (n v : Nat) : List Nat :=
  (List.range n).map (fun i => (v >>> (8 * (n - 1 - i))) % 256)

/-- SHA-256 message padding: append 0x80, zeros, then the 64-bit bit length. -/
def padMessage (msg : List Nat) : List Nat :=
  let L := msg.length
  let k := (120 - (L + 1) % 64) % 64
  msg ++ [0x80] ++ List.replicate k 0 ++ beBytes 8 (8 * L)

/-- Pack bytes into big-endian 32-bit words. -/
def toWords : List Nat → List Nat
  | a :: b :: c :: d :: rest => (a * 16777216 + b * 65536 + c * 256 + d) :: toWords rest
  | _ => []

/-- Split a list into chunks of `n + 1` elements (the last may be shorter);
structural recursion on a fuel bounded by the list length. -/
def takeChunksAux (n : Nat) : Nat → List α → List (List α)
  | _, [] => []
  | 0, l => [l]
  | fuel + 1, x :: xs => (x :: xs).take (n + 1) :: takeChunksAux n fuel ((x :: xs).drop (n + 1))

def takeChunks (n : Nat) (l : List α) : List (List α) := takeChunksAux n l.length l

/-- Extend a 16-word block to the 64-word message schedule. -/
def schedule (block : List Nat) : List Nat :=
  (List.range 48).foldl
    (fun w i =>
      w ++ [w32 (w.getD i 0 + smallS0 (w.getD (i + 1) 0) + w.getD (i + 9) 0
              + smallS1 (w.getD (i + 14) 0))])
    block

/-- One SHA-256 compression round on the 8-word working state. -/
def shaRound (k wi : Nat) (s : List Nat) : List Nat :=
  match s with
  | [a, b, c, d, e, f, g, h] =>
    let t1 := w32 (h + bigS1 e + chF e f g + k + wi)
    let t2 := w32 (bigS0 a + majF a b c)
    [w32 (t1 + t2), a, b, c, w32 (d + t1), e, f, g]
  | s => s

/-- Compress one 512-bit block into the hash state. -/
def compress (hs block : List Nat) : List Nat :=
  let ws := schedule block
  let fin := (List.range 64).foldl (fun s i => shaRound (shaK.getD i 0) (ws.getD i 0) s) hs
  (hs.zip fin).map (fun p => w32 (p.1 + p.2))

def sha256words (msg : List Nat) : List Nat :=
  (takeChunks 15 (toWords (padMessage msg))).foldl compress shaH0

def hexDigit (n : Nat) : Char := "0123456789abcdef".data.getD n '0'

def toHex8 (v : Nat) : String :=
  String.mk ((List.range 8).map (fun i => hexDigit ((v >>> (4 * (7 - i))) % 16)))

/-- Lowercase hex digest, the model of `hashlib.sha256(content).hexdigest()`. -/
def sha256hex (msg : List Nat) : String :=
  String.join ((sha256words msg).map toHex8)

/-! ## Python string helpers -/

/-- The default whitespace set of Python `str.strip` (ASCII part). -/
def pyIsSpace (c : Char) : Bool :=
  c = ' ' || c = '\t' || c = '\n' || c = '\x0d' || c = '\x0b' || c = '\x0c'

/-- Model of Python `str.strip()`: drop whitespace from both ends. -/
def pyStrip (s : String) : String :=
  String.mk (((s.data.dropWhile pyIsSpace).reverse.dropWhile pyIsSpace).reverse)

/-! ## Constants (fetch.py lines 12–14) -/

def MANIFEST_URL : String := "https://prod.proxy.ing/functions/v1/get-release-manifest"

def DEFAULT_CHANNEL : String := "stable"

/-- `Path.home() / ".orchard"`; the home directory is rendered as `~`. -/
def ORCHARD_HOME : String := "~/.orchard"

def BINARY_PATH : String := ORCHARD_HOME ++ "/bin/proxy_inference_engine"

def LOCK_PATH : String := ORCHARD_HOME ++ "/install.lock"

/-! ## Python exceptions raised by fetch.py -/

/-- The exceptions the module can raise, with their identifying payload. -/
inductive PyErr where
  /-- `requests.exceptions.HTTPError` from `raise_for_status()`; carries the
  response status and the requested url. -/
  | httpError (status : Nat) (url : String)
  /-- `KeyError` from a missing dict key such as `info["sha256"]`. -/
  | keyError (key : String)
  /-- `ValueError` with its message (version-not-found, line 66). -/
  | valueError (msg : String)
  /-- `RuntimeError` with its message (integrity, line 82; incomplete, line 48). -/
  | runtimeError (msg : String)
  /-- `FileNotFoundError` with its message (override missing, line 25; chmod on
  a missing binary, line 96). -/
  | fileNotFoundError (msg : String)
  /-- `filelock.Timeout` carrying the lock file path (line 39). -/
  | lockTimeout (lockPath : String)
  /-- `tarfile.ReadError` on bytes that are not a valid gzipped tar (line 91). -/
  | tarError
deriving DecidableEq, Repr

/-- Message of the `ValueError` at line 66. -/
def versionNotFoundMsg (version channel : String) : String :=
  "Version " ++ version ++ " not found in " ++ channel ++ " channel"

/-- Message of the `RuntimeError` at lines 82–86. -/
def sha256MismatchMsg (expected actual : String) : String :=
  "SHA256 mismatch!\n  Expected: " ++ expected ++ "\n  Got:      " ++ actual

/-- Message of the `RuntimeError` at line 48. -/
def incompleteMsg : String := "Download completed but binary not found"

/-- Message of the `FileNotFoundError` at lines 25–27. -/
def overrideMissingMsg (localPath : String) : String :=
  "PIE_LOCAL_BUILD set but binary not found: " ++ localPath

/-! ## Data model: manifest and network oracle -/

/-- One entry of `manifest["versions"]`: a JSON object.  `sha256 = none`
models the key being absent from the object. -/
structure ArtifactInfo where
  url : String
  sha256 : Option String
deriving DecidableEq, Repr

/-- The parsed release manifest `{ latest, versions }`. -/
structure Manifest where
  latest : String
  versions : List (String × ArtifactInfo)
deriving DecidableEq, Repr

/-- `requests.get(...).raise_for_status()` raises for 4xx/5xx status. -/
def okStatus (status : Nat) : Bool := status < 400

/-- The external world `download_engine` talks to: the manifest service, the
artifact store, and the tar decoder (`tarfile`), all supplied as oracles.
`parseTarGz` returns the archive's member list (path, bytes) or `none` when
the bytes are not a valid gzipped tar. -/
structure Net where
  manifestStatus : Nat
  manifest : Manifest
  artifactStatus : String → Nat
  artifactBytes : String → List Nat
  parseTarGz : List Nat → Option (List (String × List Nat))

/-! ## Version resolution (fetch.py lines 61–68) -/

/-- Lines 61–68: default to `manifest["latest"]`, then require membership in
`manifest["versions"]`. -/
def resolveVersion (manifest : Manifest) (version? : Option String) (channel : String) :
    Except PyErr (String × ArtifactInfo) :=
  let version := version?.getD manifest.latest
  match manifest.versions.lookup version with
  | none => .error (.valueError (versionNotFoundMsg version channel))
  | some info => .ok (version, info)

/-! ## Integrity verification (fetch.py lines 79–86) -/

/-- Lines 79–86: compute `hashlib.sha256(content).hexdigest()` and raise iff
`expected_sha256` is truthy (non-empty) and the digests differ, by exact
string comparison.  Returns the raised exception, or `none` when the check
passes or is skipped. -/
def verify_sha256 (content : List Nat) (expected : String) : Option PyErr :=
  let actual := sha256hex content
  if expected != "" && actual != expected then
    some (.runtimeError (sha256MismatchMsg expected actual))
  else
    none

/-! ## Filesystem effects of an install, as a trace of primitive operations -/

/-- The slice of the filesystem state under the install root that the module
reads or writes: the binary at the canonical path (with its content and
executable bit) and `version.txt`. -/
structure InstallFs where
  rootExists : Bool
  binary : Option (List Nat)
  binaryExec : Bool
  versionFile : Option String
deriving DecidableEq, Repr

/-- The empty install root: nothing installed. -/
def emptyFs : InstallFs :=
  { rootExists := false, binary := none, binaryExec := false, versionFile := none }

/-- Primitive filesystem operations an install performs, in order.  Extraction
of the binary member is an `open("wb")` (create/truncate) followed by chunked
writes, matching `tarfile`'s buffered copy. -/
inductive FsOp where
  | mkdirRoot
  | createBinary
  | appendBinary (chunk : List Nat)
  | writeOther (path : String)
  | chmodBinary
  | writeVersion (v : String)
deriving DecidableEq, Repr

def applyOp (s : InstallFs) : FsOp → InstallFs
  | .mkdirRoot => { s with rootExists := true }
  | .createBinary => { s with binary := some [] }
  | .appendBinary chunk => { s with binary := some ((s.binary.getD []) ++ chunk) }
  | .writeOther _ => s
  | .chmodBinary => { s with binaryExec := true }
  | .writeVersion v => { s with versionFile := some v }

/-- `tarfile` copies file data in 16 KiB chunks. -/
def tarChunks (bytes : List Nat) : List (List Nat) := takeChunks 16383 bytes

/-- The operations extracting one archive member into the install root. -/
def memberOps (member : String × List Nat) : List FsOp :=
  if member.1 = "bin/proxy_inference_engine" then
    FsOp.createBinary :: (tarChunks member.2).map FsOp.appendBinary
  else
    [FsOp.writeOther member.1]

/-- Lines 89–92: `mkdir(parents=True, exist_ok=True)` then `extractall`. -/
def install_ops (members : List (String × List Nat)) : List FsOp :=
  FsOp.mkdirRoot :: (members.map memberOps).flatten

/-- Every state observable during a sequence of filesystem operations (a crash
or a concurrent reader can see any prefix of the trace). -/
def scanStates (fs : InstallFs) (ops : List FsOp) : List InstallFs :=
  ops.scanl applyOp fs

/-! ## `download_engine` (fetch.py lines 53–102) -/

/-- Shallow embedding of `download_engine(channel, version)`.  Returns the
trace of filesystem operations performed and the exception raised, if any
(`none` means the function returned normally).  Network and tar decoding come
from the `net` oracle; `fs` is the filesystem at entry. -/
def download_engine (channel : String) (version? : Option String) (net : Net)
    (fs : InstallFs) : List FsOp × Option PyErr :=
  -- 1. fetch manifest, raise_for_status
  if ¬ okStatus net.manifestStatus then
    ([], some (.httpError net.manifestStatus MANIFEST_URL))
  else
    -- 2. resolve version
    match resolveVersion net.manifest version? channel with
    | .error e => ([], some e)
    | .ok (version, info) =>
      -- line 70: info["sha256"] raises KeyError when the key is absent
      match info.sha256 with
      | none => ([], some (.keyError "sha256"))
      | some expected =>
        -- 3. download, raise_for_status
        if ¬ okStatus (net.artifactStatus info.url) then
          ([], some (.httpError (net.artifactStatus info.url) info.url))
        else
          let content := net.artifactBytes info.url
          -- 4. verify SHA256
          match verify_sha256 content expected with
          | some e => ([], some e)
          | none =>
            -- 5. mkdir + extract
            match net.parseTarGz content with
            | none => ([FsOp.mkdirRoot], some .tarError)
            | some members =>
              let ops := install_ops members
              let fs1 := ops.foldl applyOp fs
              -- 6. chmod raises FileNotFoundError when the binary is absent
              if fs1.binary.isSome then
                -- 7. write version file (`version or ""`)
                (ops ++ [FsOp.chmodBinary,
                         FsOp.writeVersion (if version = "" then "" else version)], none)
              else
                (ops, some (.fileNotFoundError BINARY_PATH))

/-! ## `get_installed_version` and `check_for_updates` (fetch.py lines 105–126) -/

/-- Lines 105–110: read `version.txt` stripped, or `None` when absent. -/
def get_installed_version (fs : InstallFs) : Option String :=
  match fs.versionFile with
  | some content => some (pyStrip content)
  | none => none

/-- Lines 113–126.  Besides the returned value (or raised exception), the
second component records whether the manifest request was issued. -/
def check_for_updates (_channel : String) (fs : InstallFs) (net : Net) :
    Except PyErr (Option String) × Bool :=
  match get_installed_version fs with
  | none => (.ok none, false)
  | some installed =>
    if installed = "" then (.ok none, false)   -- `if not installed`
    else if ¬ okStatus net.manifestStatus then
      (.error (.httpError net.manifestStatus MANIFEST_URL), true)
    else
      let latest := net.manifest.latest
      if latest ≠ installed then (.ok (some latest), true) else (.ok none, true)

/-! ## `get_engine_path` (fetch.py lines 17–50) -/

/-- The environment variables read by the module. -/
structure GepEnv where
  pieLocalBuild : Option String
deriving DecidableEq, Repr

/-- Probe results of the external world at each point `get_engine_path`
touches it.  Each existence check is a separate probe because concurrent
processes may change the filesystem between probes; `downloadResult` is the
outcome of the nested `download_engine()` call (`none` = returned normally). -/
structure GepWorld where
  overrideBinaryExists : String → Bool
  existsAtEntry : Bool
  lockAcquirable : Bool
  existsAtRecheck : Bool
  downloadResult : Option PyErr
  existsAfterInstall : Bool

/-- Observable outcome of one `get_engine_path` call. -/
structure GepOut where
  result : Except PyErr String
  downloadCalled : Bool
  lockTaken : Bool
  lockHeldAfter : Bool
deriving Repr

/-- Semantics of `with FileLock(lock_path, timeout=300):` — acquire (or raise
`filelock.Timeout`), run the body, and release on both the normal and the
exceptional exit of the body.  The body yields its result together with a
flag recording whether it invoked `download_engine`; the combinator returns
(result, downloadCalled, lockTaken, lockHeldAfter). -/
def withFileLock (acquirable : Bool) (lockPath : String)
    (body : Unit → Except PyErr α × Bool) :
    Except PyErr α × Bool × Bool × Bool :=
  if acquirable then
    let (r, dl) := body ()
    (r, dl, true, false)
  else
    (.error (.lockTimeout lockPath), false, false, false)

/-- Lines 40–45, the body of the `with` block: re-check existence, else call
`download_engine()`.  `ok (some p)` models the early `return binary_path`;
`ok none` models falling off the end of the block. -/
def criticalSection (w : GepWorld) (_ : Unit) : Except PyErr (Option String) × Bool :=
  if w.existsAtRecheck then
    (.ok (some BINARY_PATH), false)
  else
    match w.downloadResult with
    | some e => (.error e, true)
    | none => (.ok none, true)

/-- Lines 29–50: fast path, lock, double-check, download, final check. -/
def managedInstallPath (w : GepWorld) : GepOut :=
  if w.existsAtEntry then
    { result := .ok BINARY_PATH, downloadCalled := false,
      lockTaken := false, lockHeldAfter := false }
  else
    match withFileLock w.lockAcquirable LOCK_PATH (criticalSection w) with
    | (.error e, dl, taken, held) =>
      { result := .error e, downloadCalled := dl, lockTaken := taken, lockHeldAfter := held }
    | (.ok (some p), dl, taken, held) =>
      { result := .ok p, downloadCalled := dl, lockTaken := taken, lockHeldAfter := held }
    | (.ok none, dl, taken, held) =>
      if w.existsAfterInstall then
        { result := .ok BINARY_PATH, downloadCalled := dl, lockTaken := taken, lockHeldAfter := held }
      else
        { result := .error (.runtimeError incompleteMsg), downloadCalled := dl,
          lockTaken := taken, lockHeldAfter := held }

/-- Shallow embedding of `get_engine_path()` (lines 17–50).  The override
branch follows Python truthiness: `if local_build:` is taken only when the
variable is set and non-empty. -/
def get_engine_path (env : GepEnv) (w : GepWorld) : GepOut :=
  match env.pieLocalBuild with
  | none => managedInstallPath w
  | some d =>
    if d = "" then
      managedInstallPath w
    else
      let localPath := d ++ "/bin/proxy_inference_engine"
      if w.overrideBinaryExists d then
        { result := .ok localPath, downloadCalled := false,
          lockTaken := false, lockHeldAfter := false }
      else
        { result := .error (.fileNotFoundError (overrideMissingMsg localPath)),
          downloadCalled := false, lockTaken := false, lockHeldAfter := false }

/-! ## The error surface of the seven failure modes (spec §4, §7) -/

/-- The seven failure modes the spec requires to be distinguishable. -/
inductive FailureMode where
  | configuration
  | lockTimeoutMode
  | manifestFetch
  | versionNotFound
  | download
  | integrity
  | installIncomplete
deriving DecidableEq, Repr

/-- Parameters a failure can depend on (override directory, HTTP status,
artifact url, version, channel, hashes). -/
structure ErrParams where
  dir : String
  status : Nat
  url : String
  version : String
  channel : String
  expected : String
  actual : String
deriving DecidableEq, Repr

/-- The exception each failure mode surfaces to the caller, exactly as
`get_engine_path` / `download_engine` construct it. -/
def surfacedError : FailureMode → ErrParams → PyErr
  | .configuration, p =>
    .fileNotFoundError (overrideMissingMsg (p.dir ++ "/bin/proxy_inference_engine"))
  | .lockTimeoutMode, _ => .lockTimeout LOCK_PATH
  | .manifestFetch, p => .httpError p.status MANIFEST_URL
  | .versionNotFound, p => .valueError (versionNotFoundMsg p.version p.channel)
  | .download, p => .httpError p.status p.url
  | .integrity, p => .runtimeError (sha256MismatchMsg p.expected p.actual)
  | .installIncomplete, _ => .runtimeError incompleteMsg

/-- The Python exception class of an exception value. -/
def errCtorIdx : PyErr → Nat
  | .httpError .. => 0
  | .keyError .. => 1
  | .valueError .. => 2
  | .runtimeError .. => 3
  | .fileNotFoundError .. => 4
  | .lockTimeout .. => 5
  | .tarError => 6

/-- The exception class each failure mode surfaces. -/
def modeCtorIdx : FailureMode → Nat
  | .configuration => 4
  | .lockTimeoutMode => 5
  | .manifestFetch => 0
  | .versionNotFound => 2
  | .download => 0
  | .integrity => 3
  | .installIncomplete => 3

/-! ## Concrete fixtures used in counterexamples and witnesses -/

/-- Lowercase a hex digit (hex strings only use `0-9a-fA-F`). -/
def lowerHexChar (c : Char) : Char :=
  match c with
  | 'A' => 'a' | 'B' => 'b' | 'C' => 'c' | 'D' => 'd' | 'E' => 'e' | 'F' => 'f'
  | c => c

/-- The spec's §4.5 comparison, stated in its own words: a case-insensitive
hex compare, i.e. equality after lowercasing.  Used only to contrast with
`verify_sha256`, which the source code defines. -/
def specHexEqCaseless (a b : String) : Bool :=
  a.data.map lowerHexChar == b.data.map lowerHexChar

/-- `sha256hex []` rendered in uppercase. -/
def c2UpperHex : String := "E3B0C44298FC1C149AFBF4C8996FB92427AE41E4649B934CA495991B7852B855"

/-- A healthy world: manifest with a single version `v1` (empty `sha256`, so
verification is skipped), whose artifact decodes to an archive holding the
binary `[1, 2, 3]`. -/
def c1Net : Net :=
  { manifestStatus := 200,
    manifest := { latest := "v1", versions := [("v1", { url := "https://x/a.tgz", sha256 := some "" })] },
    artifactStatus := fun _ => 200,
    artifactBytes := fun _ => [],
    parseTarGz := fun _ => some [("bin/proxy_inference_engine", [1, 2, 3])] }

def c1Run : List FsOp × Option PyErr := download_engine "stable" none c1Net emptyFs

def c1Final : InstallFs := c1Run.1.foldl applyOp emptyFs

/-- A world whose manifest's only version id carries a trailing space. -/
def c5Net : Net :=
  { manifestStatus := 200,
    manifest := { latest := "v1 ", versions := [("v1 ", { url := "u", sha256 := some "" })] },
    artifactStatus := fun _ => 200,
    artifactBytes := fun _ => [],
    parseTarGz := fun _ => some [("bin/proxy_inference_engine", [7])] }

def c5Run : List FsOp × Option PyErr := download_engine "stable" (some "v1 ") c5Net emptyFs

def c5Final : InstallFs := c5Run.1.foldl applyOp emptyFs

/-- A world used for the C5 witness: version `1.2.0` installs cleanly. -/
def c5wNet : Net :=
  { manifestStatus := 200,
    manifest := { latest := "1.2.0", versions := [("1.2.0", { url := "https://x/a.tgz", sha256 := some "" })] },
    artifactStatus := fun _ => 200,
    artifactBytes := fun _ => [],
    parseTarGz := fun _ => some [("bin/proxy_inference_engine", [1])] }

/-- A second manifest service snapshot whose latest is `2.0.0`. -/
def c5wNet2 : Net :=
  { manifestStatus := 200,
    manifest := { latest := "2.0.0", versions := [] },
    artifactStatus := fun _ => 200,
    artifactBytes := fun _ => [],
    parseTarGz := fun _ => none }

/-- A world where the manifest request itself answers 500. -/
def c3NetA : Net :=
  { manifestStatus := 500,
    manifest := { latest := "v", versions := [] },
    artifactStatus := fun _ => 200,
    artifactBytes := fun _ => [],
    parseTarGz := fun _ => none }

/-- A world where the manifest is fine but the artifact download answers 500
from an artifact url that happens to equal the manifest url. -/
def c3NetB : Net :=
  { manifestStatus := 200,
    manifest := { latest := "v", versions := [("v", { url := MANIFEST_URL, sha256 := some "" })] },
    artifactStatus := fun _ => 500,
    artifactBytes := fun _ => [],
    parseTarGz := fun _ => none }

def c3ParamsA : ErrParams :=
  { dir := "", status := 500, url := "", version := "", channel := "", expected := "", actual := "" }

def c3ParamsB : ErrParams :=
  { dir := "", status := 500, url := MANIFEST_URL, version := "", channel := "", expected := "", actual := "" }

/-- A world whose manifest entry for `v` omits the `sha256` key entirely. -/
def c2wNet : Net :=
  { manifestStatus := 200,
    manifest := { latest := "v", versions := [("v", { url := "u", sha256 := none })] },
    artifactStatus := fun _ => 200,
    artifactBytes := fun _ => [],
    parseTarGz := fun _ => none }

/-- The spec §8 example manifest. -/
def c4Manifest : Manifest :=
  { latest := "1.2.0", versions := [("1.2.0", { url := "https://x/a.tgz", sha256 := some "abc" })] }

/-- A world with no override binary anywhere, nothing installed, the lock
free, and a successful nested download. -/
def c6World : GepWorld :=
  { overrideBinaryExists := fun _ => false,
    existsAtEntry := false,
    lockAcquirable := true,
    existsAtRecheck := false,
    downloadResult := none,
    existsAfterInstall := true }

/-- A world where the binary already exists at entry. -/
def c7WorldEntry : GepWorld :=
  { overrideBinaryExists := fun _ => false,
    existsAtEntry := true,
    lockAcquirable := true,
    existsAtRecheck := true,
    downloadResult := some (.runtimeError "unused"),
    existsAfterInstall := true }

/-- A world where the binary is absent at entry but present at the re-check
after the lock is acquired. -/
def c7WorldRecheck : GepWorld :=
  { overrideBinaryExists := fun _ => false,
    existsAtEntry := false,
    lockAcquirable := true,
    existsAtRecheck := true,
    downloadResult := some (.runtimeError "unused"),
    existsAfterInstall := false }

/-- A version file holding only whitespace. -/
def c10Fs : InstallFs := { emptyFs with versionFile := some " \t\n " }

/-! ## Helper lemmas -/

set_option maxRecDepth 100000

/-- `managedInstallPath` never leaves the lock held, on any branch. -/
theorem managed_lock_released (w : GepWorld) :
    (managedInstallPath w).lockHeldAfter = false := by
  by_cases h1 : w.existsAtEntry
  · simp [managedInstallPath, h1]
  · by_cases h2 : w.lockAcquirable
    · by_cases h3 : w.existsAtRecheck
      · simp [managedInstallPath, withFileLock, criticalSection, h1, h2, h3]
      · cases h4 : w.downloadResult <;>
          by_cases h5 : w.existsAfterInstall <;>
            simp [managedInstallPath, withFileLock, criticalSection, h1, h2, h3, h4, h5]
    · simp [managedInstallPath, withFileLock, h1, h2]

/-- The integrity message and the install-incomplete message can never
coincide: they start with different characters. -/
theorem sha256MismatchMsg_ne_incompleteMsg (e a : String) :
    sha256MismatchMsg e a ≠ incompleteMsg := by
  intro h
  have h1 : (sha256MismatchMsg e a).data.head? = some 'S' := rfl
  rw [h] at h1
  exact absurd h1 (by decide)

/-- The exception class surfaced by a failure mode is `modeCtorIdx`. -/
theorem errCtorIdx_surfaced (m : FailureMode) (p : ErrParams) :
    errCtorIdx (surfacedError m p) = modeCtorIdx m := by
  cases m <;> rfl

/-! ## Claims -/

/-- **C4.** For every manifest, resolution with no requested version returns
the descriptor at `manifest.latest` (whenever that descriptor exists, i.e.
the expression `manifest.versions[manifest.latest]` denotes); and for every
requested version absent from `manifest.versions`, resolution fails with the
version-not-found error naming the requested version and the channel
(fetch.py lines 61–68; the spec's `VersionNotFoundError` is realized as a
`ValueError`). -/
theorem orchard_c4_theorem (m : Manifest) (channel v : String) (d : ArtifactInfo)
    (hlat : m.versions.lookup m.latest = some d)
    (hmiss : m.versions.lookup v = none) :
    resolveVersion m none channel = .ok (m.latest, d) ∧
    resolveVersion m (some v) channel = .error (.valueError (versionNotFoundMsg v channel)) := by
  constructor
  · simp [resolveVersion, hlat]
  · simp [resolveVersion, hmiss]

/-- Witness for C4 at the spec §8 example manifest. -/
theorem orchard_c4_witness :
    resolveVersion c4Manifest none "stable" =
      .ok ("1.2.0", { url := "https://x/a.tgz", sha256 := some "abc" }) ∧
    resolveVersion c4Manifest (some "9.9.9") "stable" =
      .error (.valueError (versionNotFoundMsg "9.9.9" "stable")) :=
  orchard_c4_theorem c4Manifest "stable" "9.9.9" _ (by decide) (by decide)

/-- **C6.** When `PIE_LOCAL_BUILD` is set to a non-empty directory under
which the binary does not exist, `get_engine_path` fails with the
configuration error (realized as a `FileNotFoundError` naming the missing
path) and never falls back to the managed install path: no download is
attempted and the lock is never taken (fetch.py lines 19–27). -/
theorem orchard_c6_theorem (env : GepEnv) (w : GepWorld) (d : String)
    (hset : env.pieLocalBuild = some d) (hne : d ≠ "")
    (hmiss : w.overrideBinaryExists d = false) :
    (get_engine_path env w).result =
      .error (.fileNotFoundError (overrideMissingMsg (d ++ "/bin/proxy_inference_engine"))) ∧
    (get_engine_path env w).downloadCalled = false ∧
    (get_engine_path env w).lockTaken = false := by
  simp [get_engine_path, hset, hne, hmiss]

/-- Witness for C6. -/
theorem orchard_c6_witness :
    (get_engine_path { pieLocalBuild := some "/tmp/build" } c6World).result =
      .error (.fileNotFoundError (overrideMissingMsg "/tmp/build/bin/proxy_inference_engine")) ∧
    (get_engine_path { pieLocalBuild := some "/tmp/build" } c6World).downloadCalled = false ∧
    (get_engine_path { pieLocalBuild := some "/tmp/build" } c6World).lockTaken = false :=
  orchard_c6_theorem _ _ "/tmp/build" rfl (by decide) rfl

/-- **C7.** With no override set (unset or empty), whenever the canonical
binary exists at entry, or exists at the re-check performed after acquiring
the lock, `get_engine_path` returns the canonical path without invoking
`download_engine` (hence no manifest fetch, download or extraction), and the
fast path takes no lock (fetch.py lines 31–33 and 41–42). -/
theorem orchard_c7_theorem (env : GepEnv) (w : GepWorld)
    (hov : env.pieLocalBuild = none ∨ env.pieLocalBuild = some "")
    (hex : w.existsAtEntry = true ∨ (w.lockAcquirable = true ∧ w.existsAtRecheck = true)) :
    (get_engine_path env w).result = .ok BINARY_PATH ∧
    (get_engine_path env w).downloadCalled = false ∧
    (get_engine_path env w).lockTaken = !w.existsAtEntry := by
  have hm : get_engine_path env w = managedInstallPath w := by
    rcases hov with h | h <;> simp [get_engine_path, h]
  rw [hm]
  by_cases h1 : w.existsAtEntry
  · simp [managedInstallPath, h1]
  · rcases hex with h | ⟨hl, hr⟩
    · exact absurd h (by simpa using h1)
    · simp [managedInstallPath, withFileLock, criticalSection, h1, hl, hr]

/-- Witness for C7, covering both the fast path and the re-check path. -/
theorem orchard_c7_witness :
    ((get_engine_path { pieLocalBuild := none } c7WorldEntry).result = .ok BINARY_PATH ∧
      (get_engine_path { pieLocalBuild := none } c7WorldEntry).downloadCalled = false ∧
      (get_engine_path { pieLocalBuild := none } c7WorldEntry).lockTaken = !c7WorldEntry.existsAtEntry) ∧
    ((get_engine_path { pieLocalBuild := some "" } c7WorldRecheck).result = .ok BINARY_PATH ∧
      (get_engine_path { pieLocalBuild := some "" } c7WorldRecheck).downloadCalled = false ∧
      (get_engine_path { pieLocalBuild := some "" } c7WorldRecheck).lockTaken = !c7WorldRecheck.existsAtEntry) :=
  ⟨orchard_c7_theorem _ c7WorldEntry (Or.inl rfl) (Or.inl rfl),
   orchard_c7_theorem _ c7WorldRecheck (Or.inr rfl) (Or.inr ⟨rfl, rfl⟩)⟩

/-- **C8.** On every exit path of `get_engine_path` — fast path, override,
lock timeout, re-check return, download failure raised inside the critical
section, and normal completion — the cross-process lock is not held after
the call (the `with FileLock` block releases on both normal and exceptional
exit; fetch.py lines 39–45). -/
theorem orchard_c8_theorem (env : GepEnv) (w : GepWorld) :
    (get_engine_path env w).lockHeldAfter = false := by
  cases henv : env.pieLocalBuild with
  | none => simpa [get_engine_path, henv] using managed_lock_released w
  | some d =>
    by_cases hd : d = ""
    · simpa [get_engine_path, henv, hd] using managed_lock_released w
    · by_cases hex : w.overrideBinaryExists d <;>
        simp [get_engine_path, henv, hd, hex]

/-- **C9.** `PIE_LOCAL_BUILD` set to the empty string is treated exactly as
if the variable were unset: the whole observable outcome of
`get_engine_path` (result, download, locking) is identical, because
`if local_build:` tests Python truthiness (fetch.py lines 19–29). -/
theorem orchard_c9_theorem (w : GepWorld) :
    get_engine_path { pieLocalBuild := some "" } w =
      get_engine_path { pieLocalBuild := none } w := rfl

/-- **C10.** When `version.txt` exists but holds only whitespace (or nothing),
`get_installed_version` returns the empty string, and `check_for_updates`
returns `None` without issuing the manifest request (fetch.py lines 105–110
and 113–117). -/
theorem orchard_c10_theorem (content : String) (hws : pyStrip content = "")
    (fs : InstallFs) (hvf : fs.versionFile = some content)
    (channel : String) (net : Net) :
    get_installed_version fs = some "" ∧
    check_for_updates channel fs net = (.ok none, false) := by
  have h1 : get_installed_version fs = some "" := by
    simp [get_installed_version, hvf, hws]
  refine ⟨h1, ?_⟩
  simp [check_for_updates, h1]

/-- Witness for C10 at a version file holding `" \t\n "`. -/
theorem orchard_c10_witness :
    get_installed_version c10Fs = some "" ∧
    check_for_updates "stable" c10Fs c1Net = (.ok none, false) :=
  orchard_c10_theorem " \t\n " (by decide) c10Fs rfl "stable" c1Net

/-- Python's `version or ""` on a string is the identity. -/
theorem if_empty_id (v : String) : (if v = "" then "" else v) = v := by
  by_cases h : v = "" <;> simp [h]

/-- Inversion of a successful `download_engine` run: it resolved a version,
extracted an archive, found the binary present, and its trace is the
extraction operations followed by `chmod` and the version-file write. -/
theorem download_success_shape (channel : String) (version? : Option String) (net : Net)
    (fs : InstallFs) (ops : List FsOp)
    (h : download_engine channel version? net fs = (ops, none)) :
    ∃ members version info,
      resolveVersion net.manifest version? channel = .ok (version, info) ∧
      ((install_ops members).foldl applyOp fs).binary.isSome = true ∧
      ops = install_ops members ++ [FsOp.chmodBinary, FsOp.writeVersion version] := by
  unfold download_engine at h
  simp only [if_empty_id] at h
  split at h
  · simp at h
  · split at h
    · simp at h
    · next version info hres =>
      split at h
      · simp at h
      · next expected hsha =>
        split at h
        · simp at h
        · split at h
          · simp at h
          · split at h
            · simp at h
            · next members hparse =>
              split at h
              · next hbin =>
                injection h with h1 h2
                exact ⟨members, version, info, hres, hbin, h1.symm⟩
              · simp at h

/-- Requested-version resolution returns the requested id. -/
theorem resolveVersion_requested (m : Manifest) (v channel : String)
    (p : String × ArtifactInfo) (h : resolveVersion m (some v) channel = .ok p) :
    p.1 = v := by
  unfold resolveVersion at h
  dsimp only [Option.getD] at h
  split at h
  · simp at h
  · cases h; rfl

/-- **C1 (amended).** The claim's forward direction holds of completed runs:
after every successful `download_engine` run the binary file exists at the
canonical path.  The claim's "no partially-extracted state is ever
observable" part is false — see `orchard_c1_counterexample`. -/
theorem orchard_c1_theorem (channel : String) (version? : Option String) (net : Net)
    (fs : InstallFs) (ops : List FsOp)
    (h : download_engine channel version? net fs = (ops, none)) :
    ((ops.foldl applyOp fs).binary).isSome = true := by
  obtain ⟨members, version, info, _hres, hbin, hops⟩ :=
    download_success_shape channel version? net fs ops h
  subst hops
  rw [List.foldl_append]
  exact hbin

/-- Witness for C1 (amended) at the concrete world `c1Net`. -/
theorem orchard_c1_witness :
    (((download_engine "stable" none c1Net emptyFs).1.foldl applyOp emptyFs).binary).isSome = true :=
  orchard_c1_theorem "stable" none c1Net emptyFs _ (by decide)

/-- **C1 counterexample.** In the successful execution under `c1Net`, the
trace of filesystem operations contains an observable intermediate state
(e.g. right after `tarfile` opens the binary member for writing, before its
content is copied) in which the file exists at the canonical path but is
only partially extracted — the run has not completed and the content differs
from the installed binary.  Extraction writes directly into the live install
root (fetch.py lines 91–96), so the claimed invariant "the binary exists at
the canonical path iff a successful install has completed" fails. -/
theorem orchard_c1_counterexample :
    c1Run.2 = none ∧
    c1Final.binary = some [1, 2, 3] ∧
    (scanStates emptyFs c1Run.1).any
      (fun s => s.binary.isSome && s.binary != c1Final.binary) = true := by
  decide

/-- **C5 (amended).** For every version id `V` that is non-empty and free of
surrounding whitespace, after a successful install of `V`,
`get_installed_version` returns `V`, and `check_for_updates` against a
reachable manifest returns `None` when `manifest.latest = V` and
`manifest.latest` otherwise.  (For ids with surrounding whitespace the
read-back is stripped — see `orchard_c5_counterexample`; for empty or
whitespace-only ids `check_for_updates` short-circuits to `None`.) -/
theorem orchard_c5_theorem (channel channel2 V : String) (net net2 : Net)
    (fs : InstallFs) (ops : List FsOp)
    (hstrip : pyStrip V = V) (hne : V ≠ "")
    (hsucc : download_engine channel (some V) net fs = (ops, none))
    (hok : okStatus net2.manifestStatus = true) :
    get_installed_version (ops.foldl applyOp fs) = some V ∧
    (check_for_updates channel2 (ops.foldl applyOp fs) net2).1 =
      .ok (if net2.manifest.latest = V then none else some net2.manifest.latest) := by
  obtain ⟨members, version, info, hres, _hbin, hops⟩ :=
    download_success_shape channel (some V) net fs ops hsucc
  have hv : version = V := resolveVersion_requested net.manifest V channel (version, info) hres
  subst hv
  subst hops
  have hgi : get_installed_version ((install_ops members ++
      [FsOp.chmodBinary, FsOp.writeVersion version]).foldl applyOp fs) = some version := by
    rw [List.foldl_append]
    simp [get_installed_version, applyOp, hstrip]
  refine ⟨hgi, ?_⟩
  unfold check_for_updates
  rw [hgi]
  by_cases hl : net2.manifest.latest = version <;> simp [hne, hok, hl]

/-- Witness for C5 (amended): install `1.2.0` under `c5wNet`, then check for
updates against `c5wNet2`, whose latest is `2.0.0`. -/
theorem orchard_c5_witness :
    get_installed_version ((download_engine "stable" (some "1.2.0") c5wNet emptyFs).1.foldl
      applyOp emptyFs) = some "1.2.0" ∧
    (check_for_updates "stable" ((download_engine "stable" (some "1.2.0") c5wNet emptyFs).1.foldl
      applyOp emptyFs) c5wNet2).1 =
      .ok (if c5wNet2.manifest.latest = "1.2.0" then none else some c5wNet2.manifest.latest) :=
  orchard_c5_theorem "stable" "stable" "1.2.0" c5wNet c5wNet2 emptyFs _
    (by decide) (by decide) (by decide) (by decide)

/-- **C5 counterexample.** The claim quantifies over every version id `V`.
Take `V := "v1 "` (trailing space), a legal key of `c5Net`'s manifest: the
install succeeds and writes `version.txt` as `"v1 "`, but
`get_installed_version` strips on read (fetch.py line 109) and returns
`"v1"`, not `V`. -/
theorem orchard_c5_counterexample :
    c5Run.2 = none ∧
    get_installed_version c5Final = some "v1" ∧
    ("v1" : String) ≠ "v1 " := by
  decide

/-- **C2 (amended).** Verification raises the integrity error — reporting
both the expected and the actual digest — if and only if the manifest's
`sha256` value is present, non-empty, and differs from
`sha256(content)` under **exact, case-sensitive** string comparison
(`hexdigest()` is lowercase; fetch.py line 81 compares with `!=`); a
present-but-empty value skips verification.  A manifest entry that omits the
`sha256` key entirely does not skip verification: `info["sha256"]` at line 70
raises a `KeyError` and the install does not proceed. -/
theorem orchard_c2_theorem (content : List Nat) (expected channel v url : String)
    (net : Net) (fs : InstallFs)
    (hok : okStatus net.manifestStatus = true)
    (hlook : net.manifest.versions.lookup v = some { url := url, sha256 := none }) :
    verify_sha256 content expected =
      (if expected = "" ∨ sha256hex content = expected then none
       else some (.runtimeError (sha256MismatchMsg expected (sha256hex content)))) ∧
    download_engine channel (some v) net fs = ([], some (.keyError "sha256")) := by
  constructor
  · by_cases h1 : expected = ""
    · simp [verify_sha256, h1]
    · by_cases h2 : sha256hex content = expected
      · simp [verify_sha256, h1, h2]
      · simp [verify_sha256, h1, h2]
  · simp [download_engine, resolveVersion, hok, hlook]

/-- Witness for C2 (amended): empty expected hash skips verification, and the
`sha256`-less manifest entry of `c2wNet` makes the install fail with a
`KeyError`. -/
theorem orchard_c2_witness :
    verify_sha256 [] "" =
      (if ("" : String) = "" ∨ sha256hex [] = "" then none
       else some (.runtimeError (sha256MismatchMsg "" (sha256hex [])))) ∧
    download_engine "stable" (some "v") c2wNet emptyFs = ([], some (.keyError "sha256")) :=
  orchard_c2_theorem [] "" "stable" "v" "u" c2wNet emptyFs rfl rfl

/-- **C2 counterexample.** The claim says the comparison is case-insensitive.
Take the empty content and expect its digest written in uppercase: the two
hex strings are equal case-insensitively (per the spec's own comparison,
`specHexEqCaseless`), yet the code raises the integrity error, because line
81 compares the lowercase `hexdigest()` against the expected value with
`!=`. -/
theorem orchard_c2_counterexample :
    specHexEqCaseless c2UpperHex (sha256hex []) = true ∧
    c2UpperHex ≠ "" ∧
    verify_sha256 [] c2UpperHex =
      some (.runtimeError (sha256MismatchMsg c2UpperHex (sha256hex []))) := by
  decide

/-- **C3 (amended).** Every pair of distinct failure modes among
configuration, lock-timeout, manifest-fetch, version-not-found, download,
integrity and install-incomplete surfaces distinguishable errors — except
the pair manifest-fetch / download, which both surface
`requests.exceptions.HTTPError` and coincide outright when the artifact url
and status equal the manifest request's (see `orchard_c3_counterexample`).
In particular integrity and install-incomplete share the `RuntimeError` type
but their messages can never coincide. -/
theorem orchard_c3_theorem (m₁ m₂ : FailureMode) (p₁ p₂ : ErrParams)
    (hne : m₁ ≠ m₂)
    (hx : ¬((m₁ = .manifestFetch ∧ m₂ = .download) ∨
            (m₁ = .download ∧ m₂ = .manifestFetch))) :
    surfacedError m₁ p₁ ≠ surfacedError m₂ p₂ := by
  intro h
  have hIdx := congrArg errCtorIdx h
  rw [errCtorIdx_surfaced, errCtorIdx_surfaced] at hIdx
  cases m₁ <;> cases m₂ <;>
    first
    | exact absurd rfl hne
    | exact absurd hIdx (by decide)
    | exact hx (Or.inl (by decide))
    | exact hx (Or.inr (by decide))
    | exact sha256MismatchMsg_ne_incompleteMsg p₁.expected p₁.actual
        (PyErr.runtimeError.inj h)
    | exact sha256MismatchMsg_ne_incompleteMsg p₂.expected p₂.actual
        (PyErr.runtimeError.inj h).symm

/-- Witness for C3 (amended) at the integrity / install-incomplete pair. -/
theorem orchard_c3_witness :
    surfacedError .integrity c3ParamsA ≠ surfacedError .installIncomplete c3ParamsA :=
  orchard_c3_theorem _ _ c3ParamsA c3ParamsA (by decide) (by decide)

/-- **C3 counterexample.** A manifest-fetch failure under `c3NetA` and an
artifact-download failure under `c3NetB` (whose artifact url equals the
manifest url) surface the *same* exception — `requests.exceptions.HTTPError`
with status 500 for the manifest url — so these two failure modes are not
distinguishable by the caller. -/
theorem orchard_c3_counterexample :
    (download_engine "stable" none c3NetA emptyFs).2 =
      some (.httpError 500 MANIFEST_URL) ∧
    (download_engine "stable" none c3NetB emptyFs).2 =
      some (.httpError 500 MANIFEST_URL) ∧
    surfacedError .manifestFetch c3ParamsA = surfacedError .download c3ParamsB := by
  decide

end Orchard
